import Mathlib

/-!
Verification development for the PowerPoint-generation API demo client
(`demo_api.py`). The file gives a shallow embedding, in Lean 4, of the
Python functions `make_request`, `poll_until_complete`, `upload_template`,
`download_file`, `generate_deck` and `demo_generate_from_sample_data`,
together with theorems about the request/sleep traces those functions
produce.

Modelling conventions:
* JSON values (and Python dicts/lists built from JSON) are the inductive
  type `JVal`; Python dicts are association lists, looked up front-first.
* The network is an adversarial environment: each function receives the
  HTTP response(s) the server would return (a `PyResponse` per request for
  straight-line code, an attempt-indexed family `Nat → PyResponse` for the
  polling loop).  A trace records the requests issued, the `sleep` calls
  made, and the printed progress lines, alongside the returned value or
  the raised exception (`Except PyErr`).
* Python exceptions become the `PyErr` inductive; `requests`'s
  `raise_for_status` raises exactly on status codes in `[400, 600)`.
* `time.sleep` is modelled by counting: the `sleeps` field of a poll
  trace is the number of `time.sleep(check_interval)` calls performed.
* File-system inputs (`os.path.basename`, `os.path.getsize`, `json.load`
  of the demo data file) are abstracted into parameters holding their
  results; writing downloaded bytes to disk is not tracked.
-/

set_option autoImplicit false

namespace DemoApi

/-- JSON values, also used for the Python dict/list/str/int objects the
script manipulates (all of them originate from JSON payloads). -/
inductive JVal where
  | null
  | bool (b : Bool)
  | num (n : Int)
  | str (s : String)
  | arr (xs : List JVal)
  | obj (kvs : List (String × JVal))

/-- Python exceptions that the modelled code can raise. -/
inductive PyErr where
  /-- `requests.HTTPError`, raised by `response.raise_for_status()` for a
  4xx/5xx status code. -/
  | httpError (code : Nat)
  /-- `TimeoutError`, raised by the poller itself (client-side synthetic). -/
  | timeoutError (msg : String)
  /-- `KeyError` from a dict subscript `d[k]` with `k` missing. -/
  | keyError (key : String)
  /-- `IndexError` from a list subscript out of range. -/
  | indexError
  /-- `TypeError` from subscripting / iterating a value of the wrong shape. -/
  | typeError
  /-- `AttributeError`, e.g. calling `.startswith` on a non-string. -/
  | attributeError
deriving DecidableEq

/-- An HTTP response as seen by the client: its status code and its body
parsed as JSON (`response.json()`). -/
structure PyResponse where
  statusCode : Nat
  body : JVal

/-- One outgoing HTTP request.  `api` requests go through `make_request`
(the URL is `BASE_URL ++ endpoint`); `putFile` is the direct-to-storage
`requests.put(upload_url, data=f)` of step 2 of the template upload;
`rawGet` is the direct `requests.get(url, stream=True)` of
`download_file` for absolute URLs. -/
inductive Call where
  | api (method : String) (endpoint : String) (json_data : Option JVal) (stream : Bool)
  | putFile (url : String)
  | rawGet (url : String)

/-- Python truthiness (`bool(v)`) for the values `JVal` can hold. -/
def truthy : JVal → Bool
  | .null => false
  | .bool b => b
  | .num n => n != 0
  | .str s => !s.isEmpty
  | .arr xs => !xs.isEmpty
  | .obj kvs => !kvs.isEmpty

/-- Python subscript `v[k]` with a string key: succeeds only on dicts,
raising `KeyError` when the key is missing and `TypeError` when `v` is
not a dict. -/
def pySubscript : JVal → String → Except PyErr JVal
  | .obj kvs, k =>
    match kvs.lookup k with
    | some v => .ok v
    | none => .error (.keyError k)
  | _, _ => .error .typeError

/-- Python subscript `v[i]` with a non-negative integer index: succeeds
only on lists, raising `IndexError` out of range. -/
def pyIndexNat : JVal → Nat → Except PyErr JVal
  | .arr xs, i =>
    match xs.get? i with
    | some v => .ok v
    | none => .error .indexError
  | _, _ => .error .typeError

/-- Python `k in v` for a string key on a dict.  (The demo only applies
`in` to dicts; other receivers are not modelled and yield `TypeError`.) -/
def pyContains : JVal → String → Except PyErr Bool
  | .obj kvs, k => .ok (kvs.lookup k).isSome
  | _, _ => .error .typeError

/-- Python `d.get(k, default)` on a dict.  (Only ever applied to dicts in
the modelled code; on non-dicts it returns the default.) -/
def pyDictGet (v : JVal) (k : String) (default : JVal) : JVal :=
  match v with
  | .obj kvs => (kvs.lookup k).getD default
  | _ => default

mutual

/-- Python `repr(v)` for JSON-shaped values (string-escaping of special
characters inside string literals is not modelled; the demo never prints
such strings). -/
def pyRepr : JVal → String
  | .null => "None"
  | .bool true => "True"
  | .bool false => "False"
  | .num n => toString n
  | .str s => String.mk (Char.ofNat 39 :: (s.data ++ [Char.ofNat 39]))
  | .arr xs => "[" ++ String.intercalate ", " (pyReprList xs) ++ "]"
  | .obj kvs => "\x7b" ++ String.intercalate ", " (pyReprPairs kvs) ++ "\x7d"

/-- `repr` of each element of a Python list. -/
def pyReprList : List JVal → List String
  | [] => []
  | x :: xs => pyRepr x :: pyReprList xs

/-- `repr` of each `key: value` entry of a Python dict. -/
def pyReprPairs : List (String × JVal) → List String
  | [] => []
  | (k, v) :: kvs => (pyRepr (.str k) ++ ": " ++ pyRepr v) :: pyReprPairs kvs

end

/-- Python `str(v)` as used by f-string interpolation: strings verbatim,
everything else via `repr`-style printing (`str` and `repr` agree on
ints, bools and `None`). -/
def pyStr : JVal → String
  | .str s => s
  | v => pyRepr v

-- ===========================================================================
-- CONFIGURATION (module-level constants of the script)
-- ===========================================================================

/-- `API_KEY` constant of the script. -/
def API_KEY : String := "replace_with_your_api_key"

/-- `BASE_URL` constant of the script; `make_request` targets
`BASE_URL ++ endpoint`. -/
def BASE_URL : String := "https://powerpoint-api-gateway-36twek8d.uc.gateway.dev/api/v1"

/-- The `HEADERS` dict attached to every `make_request` call. -/
def HEADERS : List (String × String) :=
  [("X-API-Key", API_KEY), ("Content-Type", "application/json")]

-- ===========================================================================
-- make_request  (demo_api.py lines 61-96)
-- ===========================================================================

/-- `requests.Response.raise_for_status()`: raises `HTTPError` exactly for
client-error (4xx) and server-error (5xx) status codes. -/
def raise_for_status (code : Nat) : Except PyErr Unit :=
  if 400 ≤ code ∧ code < 600 then .error (.httpError code) else .ok ()

/-- What `make_request` evaluates to on success: the parsed JSON body
(`stream=False`) or the live response object (`stream=True`). -/
inductive ReqValue where
  | jsonValue (v : JVal)
  | streamResponse (r : PyResponse)

/-- Trace of one `make_request` invocation: the requests it issued and its
outcome. -/
structure ReqTrace where
  calls : List Call
  result : Except PyErr ReqValue

/-- Shallow embedding of `make_request(method, endpoint, json_data, stream)`.
`resp` is the response the server returns to the single request issued.
The function issues exactly one request, raises for 4xx/5xx via
`raise_for_status`, and otherwise returns `response.json()` or, when
streaming, the response object itself. -/
def make_request (resp : PyResponse) (method : String) (endpoint : String)
    (json_data : Option JVal := none) (stream : Bool := false) : ReqTrace :=
  { calls := [Call.api method endpoint json_data stream],
    result :=
      match raise_for_status resp.statusCode with
      | .error e => .error e
      | .ok _ =>
        if stream then .ok (.streamResponse resp) else .ok (.jsonValue resp.body) }

/-- Extract the JSON payload from a non-streaming `make_request` success
(the `streamResponse` case never occurs with `stream := false`; it is
mapped to the body for totality). -/
def reqValueJson : ReqValue → JVal
  | .jsonValue v => v
  | .streamResponse r => r.body

-- ===========================================================================
-- poll_until_complete  (demo_api.py lines 99-131)
-- ===========================================================================

/-- The terminal-status membership test
`status["status"] in ["completed", "partial", "failed"]` (Python equality
with a non-string value is `False` for every element of that list). -/
def isTerminalVal : JVal → Bool
  | .str s => s == "completed" || s == "partial" || s == "failed"
  | _ => false

/-- The progress line `f"  [{progress}%] {step}"` printed for a
non-terminal status payload, with `progress = status.get("progress", 0)`
and `step = status.get("current_step", "Processing...")`. -/
def progressLine (status : JVal) : String :=
  "  [" ++ pyStr (pyDictGet status "progress" (.num 0)) ++ "%] "
    ++ pyStr (pyDictGet status "current_step" (.str "Processing..."))

/-- Trace of a `poll_until_complete` run: number of GET requests issued,
number of `time.sleep(check_interval)` calls, progress lines printed, and
the outcome (returned payload or raised exception). -/
structure PollTrace where
  requests : Nat
  sleeps : Nat
  lines : List String
  result : Except PyErr JVal

/-- The body of the poller's `for attempt in range(max_attempts)` loop,
by recursion on the remaining attempts.  `srv attempt` is the response
the status endpoint returns to the GET of that attempt (each attempt
performs `make_request("GET", endpoint)`, inlined here: raise for
4xx/5xx, then read `response.json()`).  When the remaining-attempt fuel
is exhausted the loop falls through to `raise TimeoutError(timeoutMsg)`. -/
def pollAux (srv : Nat → PyResponse) (timeoutMsg : String) :
    Nat → Nat → PollTrace
  | _, 0 => { requests := 0, sleeps := 0, lines := [], result := .error (.timeoutError timeoutMsg) }
  | attempt, fuel + 1 =>
    let response := srv attempt
    match raise_for_status response.statusCode with
    | .error e => { requests := 1, sleeps := 0, lines := [], result := .error e }
    | .ok _ =>
      let status := response.body
      match pySubscript status "status" with
      | .error e => { requests := 1, sleeps := 0, lines := [], result := .error e }
      | .ok v =>
        if isTerminalVal v then
          { requests := 1, sleeps := 0, lines := [], result := .ok status }
        else
          let rest := pollAux srv timeoutMsg (attempt + 1) fuel
          { requests := rest.requests + 1, sleeps := rest.sleeps + 1,
            lines := progressLine status :: rest.lines, result := rest.result }

/-- Shallow embedding of
`poll_until_complete(endpoint, check_interval=3, max_attempts=60)`.
Python's `range(max_attempts)` iterates `max_attempts.toNat` times (zero
for a non-positive argument).  The timeout message interpolates
`max_attempts * check_interval` exactly as the f-string does. -/
def poll_until_complete (srv : Nat → PyResponse)
    (check_interval : Int := 3) (max_attempts : Int := 60) : PollTrace :=
  pollAux srv
    ("Operation did not complete after " ++ toString (max_attempts * check_interval) ++ "s")
    0 max_attempts.toNat

-- ===========================================================================
-- upload_template  (demo_api.py lines 138-206)
-- ===========================================================================

/-- Trace of an `upload_template` run. -/
structure UploadTrace where
  calls : List Call
  result : Except PyErr JVal

/-- Shallow embedding of `upload_template(file_path, metadata)`.
`filename` and `file_size` hold the results of `os.path.basename` and
`os.path.getsize` on `file_path`; `metadata` is the optional metadata
dict (`JVal.null` for Python `None`, matching the default).  `initResp`,
`putResp` and `confirmResp` are the server's responses to, in order, the
initiate-upload POST, the direct-to-storage PUT, and the confirm POST.
Console output of this function is informational and not tracked. -/
def upload_template (initResp putResp confirmResp : PyResponse)
    (filename : String) (file_size : Int) (metadata : JVal := .null) : UploadTrace :=
  -- Step 1: initiate upload (body: filename, file_size, `metadata or {}`)
  let body : JVal := .obj
    [("filename", .str filename), ("file_size", .num file_size),
     ("metadata", if truthy metadata then metadata else .obj [])]
  let t1 := make_request initResp "POST" "/templates" (some body) false
  match t1.result with
  | .error e => { calls := t1.calls, result := .error e }
  | .ok rv =>
    let init_response := reqValueJson rv
    match pySubscript init_response "template_id" with
    | .error e => { calls := t1.calls, result := .error e }
    | .ok template_id =>
      match pySubscript init_response "upload_url" with
      | .error e => { calls := t1.calls, result := .error e }
      | .ok upload_url =>
        match upload_url with
        | .str u =>
          -- Step 2: PUT the file bytes directly to the signed URL,
          -- followed by upload_response.raise_for_status()
          let putCall := Call.putFile u
          match raise_for_status putResp.statusCode with
          | .error e => { calls := t1.calls ++ [putCall], result := .error e }
          | .ok _ =>
            -- Step 3: confirm the upload
            let t3 := make_request confirmResp "POST"
              ("/templates/" ++ pyStr template_id ++ "/upload/confirm") none false
            match t3.result with
            | .error e => { calls := t1.calls ++ [putCall] ++ t3.calls, result := .error e }
            | .ok _ => { calls := t1.calls ++ [putCall] ++ t3.calls, result := .ok init_response }
        -- `requests.put` with a non-string URL fails before any transfer
        | _ => { calls := t1.calls, result := .error .typeError }

-- ===========================================================================
-- download_file  (demo_api.py lines 433-455)
-- ===========================================================================

/-- Shallow embedding of `download_file(url, output_path)`: requests the
bytes either through the API download endpoint (when `url` does not look
like an absolute URL) or directly (`requests.get(url, stream=True)` plus
`raise_for_status`).  Returns the requests issued and the outcome;
writing the chunks to `output_path` is not tracked.  `resp` is the
server's response.  Calling `.startswith` on a non-string raises. -/
def download_file (resp : PyResponse) (url : JVal) : List Call × Except PyErr Unit :=
  match url with
  | .str u =>
    if !u.startsWith "http" then
      let t := make_request resp "GET" ("/presentations/" ++ u ++ "/download") none true
      (t.calls, match t.result with | .error e => .error e | .ok _ => .ok ())
    else
      ([Call.rawGet u],
       match raise_for_status resp.statusCode with
       | .error e => .error e
       | .ok _ => .ok ())
  | _ => ([], .error .attributeError)

-- ===========================================================================
-- generate_deck  (demo_api.py lines 357-430)
-- ===========================================================================

/-- Python `len(v)`. -/
def pyLen : JVal → Except PyErr Nat
  | .arr xs => .ok xs.length
  | .str s => .ok s.length
  | .obj kvs => .ok kvs.length
  | _ => .error .typeError

/-- Python string truthiness for an `Optional[str]` parameter
(`None` and the empty string are falsy). -/
def truthyOptStr : Option String → Bool
  | none => false
  | some s => !s.isEmpty

/-- The subscripts evaluated by the per-slide summary loop
`for sr in result["slide_results"]`: each iteration reads
`sr["status"]`, `sr["slide_index"]` and `sr["pages_generated"]`
(any of which can raise `KeyError`/`TypeError`). -/
def slideResultsLoop : List JVal → Except PyErr Unit
  | [] => .ok ()
  | sr :: rest =>
    match pySubscript sr "status" with
    | .error e => .error e
    | .ok _ =>
      match pySubscript sr "slide_index" with
      | .error e => .error e
      | .ok _ =>
        match pySubscript sr "pages_generated" with
        | .error e => .error e
        | .ok _ => slideResultsLoop rest

/-- `if result.get("slide_results"):` followed by the summary loop.
Iterating a truthy non-list value ends in `TypeError` (either at the
`for` itself or at the first element subscript). -/
def slideResultsEffect (result : JVal) : Except PyErr Unit :=
  if truthy (pyDictGet result "slide_results" .null) then
    match pyDictGet result "slide_results" .null with
    | .arr srs => slideResultsLoop srs
    | _ => .error .typeError
  else .ok ()

/-- Trace of `generate_deck` / `demo_generate_from_sample_data`: requests
issued, printed lines that the claims refer to, and outcome (`.ok .null`
models a Python `return None`). -/
structure RunTrace where
  calls : List Call
  prints : List String
  result : Except PyErr JVal

/-- Server environment for a `generate_deck` run: the response to the
initiating POST, the attempt-indexed responses of the status endpoint,
and the response served to the download step. -/
structure DeckEnv where
  initResp : PyResponse
  pollResp : Nat → PyResponse
  downloadResp : PyResponse

/-- Shallow embedding of `generate_deck(slides, options, output_path)`:
build the request body (`options` added only when truthy), POST it,
extract `generation_id`, poll `/presentations/{id}/status` with the
poller's default interval and attempt count, print the summary (the
subscripts of which can raise), and download when an output path and a
`download_url` are present.  Console output here is informational and
not tracked (its dict subscripts are evaluated for their effects). -/
def generate_deck (env : DeckEnv) (slides : JVal) (options : JVal := .null)
    (output_path : Option String := none) : RunTrace :=
  -- `print(f"Generating deck with {len(slides)} slide(s)...")`
  match pyLen slides with
  | .error e => { calls := [], prints := [], result := .error e }
  | .ok _ =>
    let request_body : JVal :=
      .obj (("slides", slides) :: (if truthy options then [("options", options)] else []))
    let t1 := make_request env.initResp "POST" "/presentations/generate-deck" (some request_body) false
    match t1.result with
    | .error e => { calls := t1.calls, prints := [], result := .error e }
    | .ok rv =>
      let init_response := reqValueJson rv
      match pySubscript init_response "generation_id" with
      | .error e => { calls := t1.calls, prints := [], result := .error e }
      | .ok generation_id =>
        let endpoint := "/presentations/" ++ pyStr generation_id ++ "/status"
        let pt := poll_until_complete env.pollResp 3 60
        let calls := t1.calls ++ List.replicate pt.requests (Call.api "GET" endpoint none false)
        match pt.result with
        | .error e => { calls := calls, prints := [], result := .error e }
        | .ok result =>
          match pySubscript result "status" with
          | .error e => { calls := calls, prints := [], result := .error e }
          | .ok _ =>
            match pySubscript result "total_pages_generated" with
            | .error e => { calls := calls, prints := [], result := .error e }
            | .ok _ =>
              match slideResultsEffect result with
              | .error e => { calls := calls, prints := [], result := .error e }
              | .ok _ =>
                if truthyOptStr output_path && truthy (pyDictGet result "download_url" .null) then
                  match download_file env.downloadResp (pyDictGet result "download_url" .null) with
                  | (dcalls, .error e) =>
                    { calls := calls ++ dcalls, prints := [], result := .error e }
                  | (dcalls, .ok _) =>
                    { calls := calls ++ dcalls, prints := [], result := .ok result }
                else
                  { calls := calls, prints := [], result := .ok result }

-- ===========================================================================
-- demo_generate_from_sample_data  (demo_api.py lines 511-554)
-- ===========================================================================

/-- The two warning lines printed when the first slide of the demo data
has no usable `template_slide_id`. -/
def demoWarningLines : List String :=
  ["\n  WARNING: demo_data_fake.json requires template_slide_id for each slide!",
   "  Use run_end_to_end_demo() which handles this automatically"]

/-- Shallow embedding of `demo_generate_from_sample_data()`.
`deck_request` holds the parsed contents of `demo_data_fake.json`
(the file-existence check and `json.load` are abstracted into this
parameter).  The function reads `deck_request["slides"][0]` and, when
`template_slide_id` is missing from it or falsy, prints the warning and
returns `None` without any network interaction; otherwise it delegates
to `generate_deck` with the slides, the optional deck options, and
output path `demo_output.pptx`.  The banner prints are not tracked. -/
def demo_generate_from_sample_data (env : DeckEnv) (deck_request : JVal) : RunTrace :=
  match pySubscript deck_request "slides" with
  | .error e => { calls := [], prints := [], result := .error e }
  | .ok slides =>
    match pyIndexNat slides 0 with
    | .error e => { calls := [], prints := [], result := .error e }
    | .ok first_slide =>
      match pyContains first_slide "template_slide_id" with
      | .error e => { calls := [], prints := [], result := .error e }
      | .ok has_key =>
        if !has_key then
          { calls := [], prints := demoWarningLines, result := .ok .null }
        else
          match pySubscript first_slide "template_slide_id" with
          | .error e => { calls := [], prints := [], result := .error e }
          | .ok idv =>
            if !truthy idv then
              { calls := [], prints := demoWarningLines, result := .ok .null }
            else
              generate_deck env slides (pyDictGet deck_request "options" .null)
                (some "demo_output.pptx")

-- ===========================================================================
-- Helper lemmas about the polling loop
-- ===========================================================================

/-- A polled response that the loop passes through without stopping:
HTTP success, a `status` field present, holding a non-terminal value. -/
def okNonTerminal (resp : PyResponse) : Bool :=
  match raise_for_status resp.statusCode with
  | .error _ => false
  | .ok _ =>
    match pySubscript resp.body "status" with
    | .error _ => false
    | .ok v => !isTerminalVal v

theorem okNonTerminal_spec (resp : PyResponse) (h : okNonTerminal resp = true) :
    raise_for_status resp.statusCode = .ok () ∧
      ∃ v, pySubscript resp.body "status" = .ok v ∧ isTerminalVal v = false := by
  unfold okNonTerminal at h
  cases hr : raise_for_status resp.statusCode with
  | error e => rw [hr] at h; simp at h
  | ok u =>
    cases u
    rw [hr] at h
    cases hs : pySubscript resp.body "status" with
    | error e => rw [hs] at h; simp at h
    | ok v =>
      rw [hs] at h
      exact ⟨rfl, v, rfl, by simpa using h⟩

theorem pollAux_step_nonterminal (srv : Nat → PyResponse) (tm : String) (a f : Nat)
    (h : okNonTerminal (srv a) = true) :
    pollAux srv tm a (f + 1) =
      { requests := (pollAux srv tm (a + 1) f).requests + 1,
        sleeps := (pollAux srv tm (a + 1) f).sleeps + 1,
        lines := progressLine (srv a).body :: (pollAux srv tm (a + 1) f).lines,
        result := (pollAux srv tm (a + 1) f).result } := by
  obtain ⟨h1, v, h2, h3⟩ := okNonTerminal_spec _ h
  simp [pollAux, h1, h2, h3]

theorem pollAux_step_terminal (srv : Nat → PyResponse) (tm : String) (a f : Nat) (v : JVal)
    (h1 : raise_for_status (srv a).statusCode = .ok ())
    (h2 : pySubscript (srv a).body "status" = .ok v)
    (h3 : isTerminalVal v = true) :
    pollAux srv tm a (f + 1) =
      { requests := 1, sleeps := 0, lines := [], result := .ok (srv a).body } := by
  simp [pollAux, h1, h2, h3]

theorem pollAux_step_badstatus (srv : Nat → PyResponse) (tm : String) (a f : Nat) (e : PyErr)
    (h1 : raise_for_status (srv a).statusCode = .ok ())
    (h2 : pySubscript (srv a).body "status" = .error e) :
    pollAux srv tm a (f + 1) =
      { requests := 1, sleeps := 0, lines := [], result := .error e } := by
  simp [pollAux, h1, h2]

/-- Skipping `k` consecutive passed-through polls: the trace of the loop
is the trace from attempt `a + k` with `k` fewer units of fuel, plus `k`
requests and `k` sleeps. -/
theorem pollAux_skip (srv : Nat → PyResponse) (tm : String) (k : Nat) :
    ∀ a fuel, k ≤ fuel → (∀ i, i < k → okNonTerminal (srv (a + i)) = true) →
      (pollAux srv tm a fuel).requests = k + (pollAux srv tm (a + k) (fuel - k)).requests ∧
      (pollAux srv tm a fuel).sleeps = k + (pollAux srv tm (a + k) (fuel - k)).sleeps ∧
      (pollAux srv tm a fuel).result = (pollAux srv tm (a + k) (fuel - k)).result := by
  induction k with
  | zero => intro a fuel _ _; simp
  | succ k ih =>
    intro a fuel hk hnt
    obtain ⟨f, rfl⟩ : ∃ f, fuel = f + 1 := ⟨fuel - 1, by omega⟩
    rw [pollAux_step_nonterminal srv tm a f (by simpa using hnt 0 (by omega))]
    have hsh : ∀ i, i < k → okNonTerminal (srv (a + 1 + i)) = true := by
      intro i hi
      have hx := hnt (i + 1) (by omega)
      rwa [show a + (i + 1) = a + 1 + i by omega] at hx
    obtain ⟨e1, e2, e3⟩ := ih (a + 1) f (by omega) hsh
    have ha : a + (k + 1) = a + 1 + k := by omega
    have hf : f + 1 - (k + 1) = f - k := by omega
    rw [ha, hf]
    refine ⟨?_, ?_, ?_⟩
    · simp only []; omega
    · simp only []; omega
    · simpa using e3

/-- The loop reaching its first terminal response at (zero-based)
attempt `k` stops right there: `k + 1` requests, `k` sleeps, and the
attempt-`k` payload returned. -/
theorem pollAux_first_terminal (srv : Nat → PyResponse) (tm : String)
    (k fuel : Nat) (v : JVal) (hk : k < fuel)
    (hpre : ∀ i, i < k → okNonTerminal (srv i) = true)
    (h1 : raise_for_status (srv k).statusCode = .ok ())
    (h2 : pySubscript (srv k).body "status" = .ok v)
    (h3 : isTerminalVal v = true) :
    (pollAux srv tm 0 fuel).requests = k + 1 ∧
    (pollAux srv tm 0 fuel).sleeps = k ∧
    (pollAux srv tm 0 fuel).result = .ok (srv k).body := by
  obtain ⟨e1, e2, e3⟩ := pollAux_skip srv tm k 0 fuel (by omega) (by simpa using hpre)
  obtain ⟨m, hm⟩ : ∃ m, fuel - k = m + 1 := ⟨fuel - k - 1, by omega⟩
  rw [Nat.zero_add, hm, pollAux_step_terminal srv tm k m v h1 h2 h3] at e1 e2 e3
  exact ⟨by simp at e1; omega, by simp at e2; omega, by simpa using e3⟩

/-- A run whose every in-budget response is passed through exhausts the
fuel: one request and one sleep per unit of fuel, ending in the
client-side timeout. -/
theorem pollAux_all_nonterminal (srv : Nat → PyResponse) (tm : String) (fuel : Nat)
    (h : ∀ i, i < fuel → okNonTerminal (srv i) = true) :
    (pollAux srv tm 0 fuel).requests = fuel ∧
    (pollAux srv tm 0 fuel).sleeps = fuel ∧
    (pollAux srv tm 0 fuel).result = .error (.timeoutError tm) := by
  obtain ⟨e1, e2, e3⟩ := pollAux_skip srv tm fuel 0 fuel le_rfl (by simpa using h)
  rw [Nat.zero_add, Nat.sub_self] at e1 e2 e3
  simp only [pollAux] at e1 e2 e3
  exact ⟨by omega, by omega, e3⟩

/-- The loop sleeps at most once per unit of fuel. -/
theorem pollAux_sleeps_le (srv : Nat → PyResponse) (tm : String) :
    ∀ fuel a, (pollAux srv tm a fuel).sleeps ≤ fuel := by
  intro fuel
  induction fuel with
  | zero => intro a; simp [pollAux]
  | succ f ih =>
    intro a
    simp only [pollAux]
    split
    · simp
    · split
      · simp
      · split
        · simp
        · simpa using Nat.succ_le_succ (ih (a + 1))

-- ===========================================================================
-- Claim theorems about poll_until_complete
-- ===========================================================================

/-- C1: For every call to `poll_until_complete`, on the first polled
response whose `status` field is one of `completed`, `partial` or
`failed`, the poller returns that full response body immediately and
issues no further request (exactly `k + 1` requests for a first terminal
response at zero-based attempt `k`) and performs no further sleep
(exactly `k` sleeps, one per earlier non-terminal poll). -/
theorem poll_until_complete_returns_on_first_terminal
    (srv : Nat → PyResponse) (ci ma : Int) (k : Nat) (v : JVal)
    (hk : (k : Int) < ma)
    (hpre : ∀ i, i < k → okNonTerminal (srv i) = true)
    (h1 : raise_for_status (srv k).statusCode = .ok ())
    (h2 : pySubscript (srv k).body "status" = .ok v)
    (h3 : v = .str "completed" ∨ v = .str "partial" ∨ v = .str "failed") :
    (poll_until_complete srv ci ma).result = .ok (srv k).body ∧
    (poll_until_complete srv ci ma).requests = k + 1 ∧
    (poll_until_complete srv ci ma).sleeps = k := by
  have h3t : isTerminalVal v = true := by rcases h3 with rfl | rfl | rfl <;> rfl
  have hk2 : k < ma.toNat := by omega
  unfold poll_until_complete
  obtain ⟨e1, e2, e3⟩ := pollAux_first_terminal srv _ k ma.toNat v hk2 hpre h1 h2 h3t
  exact ⟨e3, e1, e2⟩

/-- A status endpoint that reports `failed` at once. -/
def srvFailedW : Nat → PyResponse := fun _ => ⟨200, .obj [("status", .str "failed")]⟩

theorem poll_until_complete_returns_on_first_terminal_witness :
    (poll_until_complete srvFailedW 3 60).result = .ok (.obj [("status", .str "failed")]) ∧
    (poll_until_complete srvFailedW 3 60).requests = 0 + 1 ∧
    (poll_until_complete srvFailedW 3 60).sleeps = 0 :=
  poll_until_complete_returns_on_first_terminal srvFailedW 3 60 0 (.str "failed")
    (by omega) (fun i hi => absurd hi (by omega)) rfl rfl (.inr (.inr rfl))

/-- C2: For every call to `poll_until_complete` in which all
`max_attempts` polled responses carry a non-terminal status, the poller
raises `TimeoutError` (a client-side synthetic error, not a
remote-reported `failed` payload) and makes no additional request after
the last attempt: exactly `max_attempts` requests in total. -/
theorem poll_until_complete_timeout
    (srv : Nat → PyResponse) (ci ma : Int)
    (hall : ∀ i, i < ma.toNat → okNonTerminal (srv i) = true) :
    (poll_until_complete srv ci ma).result =
      .error (.timeoutError ("Operation did not complete after " ++ toString (ma * ci) ++ "s")) ∧
    (poll_until_complete srv ci ma).requests = ma.toNat := by
  unfold poll_until_complete
  obtain ⟨e1, e2, e3⟩ := pollAux_all_nonterminal srv _ ma.toNat hall
  exact ⟨e3, e1⟩

/-- A status endpoint that always reports `processing`. -/
def srvProcessingW : Nat → PyResponse := fun _ => ⟨200, .obj [("status", .str "processing")]⟩

theorem poll_until_complete_timeout_witness :
    (poll_until_complete srvProcessingW 1 2).result =
      .error (.timeoutError "Operation did not complete after 2s") ∧
    (poll_until_complete srvProcessingW 1 2).requests = 2 :=
  poll_until_complete_timeout srvProcessingW 1 2 (fun _ _ => rfl)

/-- C3: For every run in which the status endpoint returns a
non-terminal status on (one-based) attempts `1 .. k-1` and a terminal
status on attempt `k`, with `k ≤ max_attempts`, the poller makes exactly
`k` requests, sleeps exactly `k - 1` times of `check_interval` seconds
each, and returns the attempt-`k` payload. -/
theorem poll_until_complete_exact_attempts
    (srv : Nat → PyResponse) (ci ma : Int) (k : Nat) (v : JVal)
    (hk1 : 1 ≤ k) (hkma : (k : Int) ≤ ma)
    (hpre : ∀ i, i + 1 < k → okNonTerminal (srv i) = true)
    (h1 : raise_for_status (srv (k - 1)).statusCode = .ok ())
    (h2 : pySubscript (srv (k - 1)).body "status" = .ok v)
    (h3 : isTerminalVal v = true) :
    (poll_until_complete srv ci ma).requests = k ∧
    (poll_until_complete srv ci ma).sleeps = k - 1 ∧
    (poll_until_complete srv ci ma).result = .ok (srv (k - 1)).body := by
  have hk2 : k - 1 < ma.toNat := by omega
  unfold poll_until_complete
  obtain ⟨e1, e2, e3⟩ := pollAux_first_terminal srv _ (k - 1) ma.toNat v hk2
    (fun i hi => hpre i (by omega)) h1 h2 h3
  exact ⟨by omega, e2, e3⟩

/-- The end-to-end scenario of the spec: `processing` with progress 50 on
attempts 1 and 2, `completed` with a download URL on attempt 3. -/
def srvScenarioW : Nat → PyResponse := fun i =>
  if i < 2 then ⟨200, .obj [("status", .str "processing"), ("progress", .num 50)]⟩
  else ⟨200, .obj [("status", .str "completed"), ("download_url", .str "https://x/y.pptx")]⟩

theorem poll_until_complete_exact_attempts_witness :
    (poll_until_complete srvScenarioW 1 5).requests = 3 ∧
    (poll_until_complete srvScenarioW 1 5).sleeps = 3 - 1 ∧
    (poll_until_complete srvScenarioW 1 5).result =
      .ok (.obj [("status", .str "completed"), ("download_url", .str "https://x/y.pptx")]) :=
  poll_until_complete_exact_attempts srvScenarioW 1 5 3 (.str "completed")
    (by omega) (by omega)
    (by intro i hi
        have hi2 : i < 2 := by omega
        interval_cases i <;> rfl)
    rfl rfl rfl

/-- C4: For every polled response whose status is non-terminal — in
particular one lacking the `progress` and/or `current_step` keys — the
poller does not fail on that response: it continues polling (one more
request and one more sleep, with the outcome of the rest of the loop),
and the emitted progress line uses `0` for the progress part when
`progress` is absent and the placeholder `Processing...` for the step
part when `current_step` is absent. -/
theorem pollAux_defaults_missing_progress_fields
    (srv : Nat → PyResponse) (tm : String) (a f : Nat)
    (kvs : List (String × JVal)) (v : JVal)
    (hok : raise_for_status (srv a).statusCode = .ok ())
    (hb : (srv a).body = .obj kvs)
    (hst : kvs.lookup "status" = some v)
    (hnt : isTerminalVal v = false) :
    (pollAux srv tm a (f + 1)).result = (pollAux srv tm (a + 1) f).result ∧
    (pollAux srv tm a (f + 1)).requests = (pollAux srv tm (a + 1) f).requests + 1 ∧
    (pollAux srv tm a (f + 1)).sleeps = (pollAux srv tm (a + 1) f).sleeps + 1 ∧
    ∃ p s,
      (pollAux srv tm a (f + 1)).lines =
        ("  [" ++ p ++ "%] " ++ s) :: (pollAux srv tm (a + 1) f).lines ∧
      (kvs.lookup "progress" = none → p = "0") ∧
      (kvs.lookup "current_step" = none → s = "Processing...") := by
  have h2 : pySubscript (srv a).body "status" = .ok v := by
    rw [hb]; simp [pySubscript, hst]
  have hont : okNonTerminal (srv a) = true := by
    simp [okNonTerminal, hok, h2, hnt]
  rw [pollAux_step_nonterminal srv tm a f hont]
  refine ⟨rfl, rfl, rfl,
    pyStr (pyDictGet (srv a).body "progress" (.num 0)),
    pyStr (pyDictGet (srv a).body "current_step" (.str "Processing...")), ?_, ?_, ?_⟩
  · simp only [progressLine]
  · intro hp
    rw [hb]
    simp [pyDictGet, hp, pyStr, pyRepr]
    rfl
  · intro hcs
    rw [hb]
    simp [pyDictGet, hcs, pyStr]

/-- A non-terminal status payload carrying neither `progress` nor
`current_step`. -/
def srvBareW : Nat → PyResponse := fun _ => ⟨200, .obj [("status", .str "processing")]⟩

theorem pollAux_defaults_missing_progress_fields_witness :
    (pollAux srvBareW "t" 0 1).result = (pollAux srvBareW "t" 1 0).result ∧
    (pollAux srvBareW "t" 0 1).requests = (pollAux srvBareW "t" 1 0).requests + 1 ∧
    (pollAux srvBareW "t" 0 1).sleeps = (pollAux srvBareW "t" 1 0).sleeps + 1 ∧
    ∃ p s,
      (pollAux srvBareW "t" 0 1).lines =
        ("  [" ++ p ++ "%] " ++ s) :: (pollAux srvBareW "t" 1 0).lines ∧
      (List.lookup "progress" [("status", JVal.str "processing")] = none → p = "0") ∧
      (List.lookup "current_step" [("status", JVal.str "processing")] = none →
        s = "Processing...") :=
  pollAux_defaults_missing_progress_fields srvBareW "t" 0 0
    [("status", .str "processing")] (.str "processing") rfl rfl rfl rfl

/-- C5: In every execution of `poll_until_complete`, the poller calls
`time.sleep(check_interval)` at most `max_attempts` times before
returning or raising, so the total client-side wait is bounded by
`check_interval * max_attempts`. -/
theorem poll_until_complete_sleeps_bounded
    (srv : Nat → PyResponse) (ci ma : Int) :
    (poll_until_complete srv ci ma).sleeps ≤ ma.toNat :=
  pollAux_sleeps_le srv _ ma.toNat 0

/-- C9: If a polled response body lacks the `status` key, the poller
fails on that response with a `KeyError` rather than treating it as
non-terminal: it stops right there (no further request or sleep). -/
theorem poll_until_complete_keyerror_on_missing_status
    (srv : Nat → PyResponse) (ci ma : Int) (k : Nat) (kvs : List (String × JVal))
    (hk : (k : Int) < ma)
    (hpre : ∀ i, i < k → okNonTerminal (srv i) = true)
    (hok : raise_for_status (srv k).statusCode = .ok ())
    (hb : (srv k).body = .obj kvs)
    (hmiss : kvs.lookup "status" = none) :
    (poll_until_complete srv ci ma).result = .error (.keyError "status") ∧
    (poll_until_complete srv ci ma).requests = k + 1 ∧
    (poll_until_complete srv ci ma).sleeps = k := by
  have h2 : pySubscript (srv k).body "status" = .error (.keyError "status") := by
    rw [hb]; simp [pySubscript, hmiss]
  have hk2 : k < ma.toNat := by omega
  unfold poll_until_complete
  obtain ⟨e1, e2, e3⟩ := pollAux_skip srv _ k 0 ma.toNat (by omega) (by simpa using hpre)
  obtain ⟨m, hm⟩ : ∃ m, ma.toNat - k = m + 1 := ⟨ma.toNat - k - 1, by omega⟩
  rw [Nat.zero_add, hm, pollAux_step_badstatus srv _ k m _ hok h2] at e1 e2 e3
  exact ⟨by simpa using e3, by simp at e1; omega, by simp at e2; omega⟩

/-- A status endpoint whose payload has no `status` field. -/
def srvNoStatusW : Nat → PyResponse := fun _ => ⟨200, .obj [("progress", .num 10)]⟩

theorem poll_until_complete_keyerror_on_missing_status_witness :
    (poll_until_complete srvNoStatusW 1 5).result = .error (.keyError "status") ∧
    (poll_until_complete srvNoStatusW 1 5).requests = 0 + 1 ∧
    (poll_until_complete srvNoStatusW 1 5).sleeps = 0 :=
  poll_until_complete_keyerror_on_missing_status srvNoStatusW 1 5 0
    [("progress", .num 10)] (by omega) (fun i hi => absurd hi (by omega)) rfl rfl rfl

/-- C10: Calling `poll_until_complete` with `max_attempts` zero or
negative issues no HTTP request and no sleep at all and immediately
raises `TimeoutError` (the loop over `range(max_attempts)` runs zero
iterations). -/
theorem poll_until_complete_nonpositive_attempts
    (srv : Nat → PyResponse) (ci ma : Int) (hma : ma ≤ 0) :
    poll_until_complete srv ci ma =
      { requests := 0, sleeps := 0, lines := [],
        result := .error (.timeoutError
          ("Operation did not complete after " ++ toString (ma * ci) ++ "s")) } := by
  unfold poll_until_complete
  rw [show ma.toNat = 0 by omega]
  rfl

theorem poll_until_complete_nonpositive_attempts_witness :
    poll_until_complete srvProcessingW 3 0 =
      { requests := 0, sleeps := 0, lines := [],
        result := .error (.timeoutError "Operation did not complete after 0s") } :=
  poll_until_complete_nonpositive_attempts srvProcessingW 3 0 (by omega)

-- ===========================================================================
-- Claim theorems about make_request, upload_template and the demo guard
-- ===========================================================================

/-- C6: Every call to `make_request` issues exactly one HTTP request; a
response with status in the 4xx/5xx range makes it raise `HTTPError`
immediately (propagated to the caller, no retry — the single entry in
the call list is the only request); on success it returns the parsed
JSON payload when `stream` is false and the live response object when
`stream` is true. -/
theorem make_request_contract (resp : PyResponse) (method endpoint : String)
    (json_data : Option JVal) (stream : Bool) :
    (make_request resp method endpoint json_data stream).calls =
      [Call.api method endpoint json_data stream] ∧
    (400 ≤ resp.statusCode ∧ resp.statusCode < 600 →
      (make_request resp method endpoint json_data stream).result =
        .error (.httpError resp.statusCode)) ∧
    (¬(400 ≤ resp.statusCode ∧ resp.statusCode < 600) →
      (make_request resp method endpoint json_data stream).result =
        (if stream then .ok (.streamResponse resp) else .ok (.jsonValue resp.body))) := by
  refine ⟨rfl, ?_, ?_⟩
  · intro h
    simp [make_request, raise_for_status, h]
  · intro h
    simp [make_request, raise_for_status, h]

theorem make_request_contract_witness :
    (make_request ⟨404, .null⟩ "GET" "/templates" none false).result =
      .error (.httpError 404) :=
  (make_request_contract ⟨404, .null⟩ "GET" "/templates" none false).2.1 (by decide)

/-- C7: Every successful run of `upload_template` performs exactly three
remote calls in this order — a POST to `/templates` carrying the
filename, file size and metadata, a PUT of the file bytes directly to
the returned `upload_url`, and a POST to
`/templates/(template_id)/upload/confirm` — and returns the response
body of the first call. -/
theorem upload_template_three_calls
    (initResp putResp confirmResp : PyResponse)
    (filename : String) (file_size : Int) (metadata : JVal) (r : JVal)
    (h : (upload_template initResp putResp confirmResp filename file_size metadata).result
           = .ok r) :
    r = initResp.body ∧
    ∃ tid u,
      pySubscript initResp.body "template_id" = .ok tid ∧
      pySubscript initResp.body "upload_url" = .ok (.str u) ∧
      (upload_template initResp putResp confirmResp filename file_size metadata).calls =
        [Call.api "POST" "/templates"
           (some (.obj [("filename", .str filename), ("file_size", .num file_size),
                        ("metadata", if truthy metadata then metadata else .obj [])])) false,
         Call.putFile u,
         Call.api "POST" ("/templates/" ++ pyStr tid ++ "/upload/confirm") none false] := by
  cases hr1 : raise_for_status initResp.statusCode with
  | error e => simp [upload_template, make_request, reqValueJson, hr1] at h
  | ok u1 =>
    cases u1
    cases hs1 : pySubscript initResp.body "template_id" with
    | error e => simp [upload_template, make_request, reqValueJson, hr1, hs1] at h
    | ok tid =>
      cases hs2 : pySubscript initResp.body "upload_url" with
      | error e => simp [upload_template, make_request, reqValueJson, hr1, hs1, hs2] at h
      | ok uu =>
        cases uu with
        | str u =>
          cases hr2 : raise_for_status putResp.statusCode with
          | error e =>
            simp [upload_template, make_request, reqValueJson, hr1, hs1, hs2, hr2] at h
          | ok u2 =>
            cases u2
            cases hr3 : raise_for_status confirmResp.statusCode with
            | error e =>
              simp [upload_template, make_request, reqValueJson, hr1, hs1, hs2, hr2, hr3] at h
            | ok u3 =>
              cases u3
              have hr : r = initResp.body := by
                simp [upload_template, make_request, reqValueJson, hr1, hs1, hs2, hr2, hr3] at h
                exact h.symm
              refine ⟨hr, tid, u, rfl, rfl, ?_⟩
              simp [upload_template, make_request, reqValueJson, hr1, hs1, hs2, hr2, hr3]
        | null => simp [upload_template, make_request, reqValueJson, hr1, hs1, hs2] at h
        | bool b => simp [upload_template, make_request, reqValueJson, hr1, hs1, hs2] at h
        | num n => simp [upload_template, make_request, reqValueJson, hr1, hs1, hs2] at h
        | arr xs => simp [upload_template, make_request, reqValueJson, hr1, hs1, hs2] at h
        | obj kvs => simp [upload_template, make_request, reqValueJson, hr1, hs1, hs2] at h

/-- A server environment in which every step of the upload handshake
succeeds. -/
def uploadInitRespW : PyResponse :=
  ⟨200, .obj [("template_id", .str "tmpl_1"), ("upload_url", .str "https://storage/put")]⟩

theorem upload_template_three_calls_witness :
    uploadInitRespW.body = uploadInitRespW.body ∧
    ∃ tid u,
      pySubscript uploadInitRespW.body "template_id" = .ok tid ∧
      pySubscript uploadInitRespW.body "upload_url" = .ok (.str u) ∧
      (upload_template uploadInitRespW ⟨200, .null⟩ ⟨200, .obj []⟩ "t.pptx" 10 .null).calls =
        [Call.api "POST" "/templates"
           (some (.obj [("filename", .str "t.pptx"), ("file_size", .num 10),
                        ("metadata", if truthy .null then .null else .obj [])])) false,
         Call.putFile u,
         Call.api "POST" ("/templates/" ++ pyStr tid ++ "/upload/confirm") none false] :=
  upload_template_three_calls uploadInitRespW ⟨200, .null⟩ ⟨200, .obj []⟩
    "t.pptx" 10 .null uploadInitRespW.body rfl

/-- C8: For every input deck whose first slide lacks the required
`template_slide_id` (the key is absent, or its value is falsy — in
particular the empty string), `demo_generate_from_sample_data` detects
this before any network call, reports it via the descriptive warning
message, and aborts locally, returning `None` without generating. -/
theorem demo_generate_aborts_on_missing_slide_id
    (env : DeckEnv) (deck_request : JVal) (kvs : List (String × JVal)) (rest : List JVal)
    (hs : pySubscript deck_request "slides" = .ok (.arr (JVal.obj kvs :: rest)))
    (hid : kvs.lookup "template_slide_id" = none ∨
           (∃ w, kvs.lookup "template_slide_id" = some w ∧ truthy w = false)) :
    (demo_generate_from_sample_data env deck_request).calls = [] ∧
    (demo_generate_from_sample_data env deck_request).result = .ok .null ∧
    (demo_generate_from_sample_data env deck_request).prints = demoWarningLines := by
  rcases hid with hnone | ⟨w, hw, hf⟩
  · have hc : pyContains (JVal.obj kvs) "template_slide_id" = .ok false := by
      simp [pyContains, hnone]
    simp [demo_generate_from_sample_data, hs, pyIndexNat, hc]
  · have hc : pyContains (JVal.obj kvs) "template_slide_id" = .ok true := by
      simp [pyContains, hw]
    have hsub : pySubscript (JVal.obj kvs) "template_slide_id" = .ok w := by
      simp [pySubscript, hw]
    simp [demo_generate_from_sample_data, hs, pyIndexNat, hc, hsub, hf]

/-- Demo data whose first slide has an empty `template_slide_id`. -/
def deckBadW : JVal := .obj [("slides", .arr [.obj [("template_slide_id", .str "")]])]

/-- A trivial deck-generation server environment. -/
def envNullW : DeckEnv := ⟨⟨200, .null⟩, fun _ => ⟨200, .null⟩, ⟨200, .null⟩⟩

theorem demo_generate_aborts_on_missing_slide_id_witness :
    (demo_generate_from_sample_data envNullW deckBadW).calls = [] ∧
    (demo_generate_from_sample_data envNullW deckBadW).result = .ok .null ∧
    (demo_generate_from_sample_data envNullW deckBadW).prints = demoWarningLines :=
  demo_generate_aborts_on_missing_slide_id envNullW deckBadW
    [("template_slide_id", .str "")] [] rfl (.inr ⟨.str "", rfl, rfl⟩)

end DemoApi
